import Mathlib

/-!
Shallow embedding of the authentication and role-authorization subsystem of
the metacore-api user service: the user data model, the user repository over
an in-memory list store, the Kafka producer boundary, the two user-service
variants (username-keyed `userService.ts` and email-keyed `part_010`), the
HTTP controller, and the two middleware variants (`authMiddleware.ts` and the
store-consulting `RoleMiddleware` of `part_018`).  External collaborators
(bcrypt, jsonwebtoken, the Kafka broker) are modelled explicitly where the
spec documents their contract.
-/

/-- Roles, from the `UserRole` enum in the user-service types
(`admin`, `user`, `manager`). -/
inductive UserRole where
  | admin
  | user
  | manager
deriving DecidableEq, Repr

/-- String form of a role, as stored ('admin' / 'user' / 'manager'). -/
def UserRole.toStr : UserRole → String
  | .admin => "admin"
  | .user => "user"
  | .manager => "manager"

/-- Modelled from the spec: the bcrypt library (external to the repository)
produces a salted one-way hash with the per-call salt embedded in the output,
so verification needs no separately stored salt.  The model records the salt
and the plaintext the hash verifies against; one-wayness is not needed for
any claim. -/
structure BcryptHash where
  salt : Nat
  plain : String
deriving DecidableEq, Repr

/-- Modelled from the spec: `bcrypt.hash(plaintext, rounds)` with the random
salt made an explicit parameter. -/
def bcryptHash (plaintext : String) (salt : Nat) : BcryptHash :=
  ⟨salt, plaintext⟩

/-- Modelled from the spec: `bcrypt.compare(plaintext, stored)` — true
exactly when the stored hash was produced from this plaintext. -/
def bcryptCompare (plaintext : String) (stored : BcryptHash) : Bool :=
  stored.plain == plaintext

/-- The `User` entity of the user-service types (part_013): id, username,
email, hashed password (sensitive, never sent to clients), names, role,
active flag and timestamps. -/
structure User where
  id : String
  username : String
  email : String
  password : BcryptHash
  firstName : String
  lastName : String
  role : UserRole
  isActive : Bool
  createdAt : Nat
  updatedAt : Nat
deriving DecidableEq, Repr

/-- `UserDTO` (part_013): the safe projection of a `User`, without the
password hash. -/
structure UserDTO where
  id : String
  username : String
  email : String
  firstName : String
  lastName : String
  role : UserRole
  isActive : Bool
  createdAt : Nat
  updatedAt : Nat
deriving DecidableEq, Repr

/-- `CreateUserDTO` (part_013). -/
structure CreateUserDTO where
  username : String
  email : String
  password : String
  firstName : String
  lastName : String
  role : Option UserRole
deriving DecidableEq, Repr

/-- `UpdateUserDTO` (part_013): only email, firstName, lastName, role and
isActive may be supplied; there is no password field. -/
structure UpdateUserDTO where
  email : Option String
  firstName : Option String
  lastName : Option String
  role : Option UserRole
  isActive : Option Bool
deriving DecidableEq, Repr

/-- The empty update, `{}` in the source. -/
def UpdateUserDTO.empty : UpdateUserDTO :=
  ⟨none, none, none, none, none⟩

/-- `LoginCredentials` (part_013): the username-keyed variant logs in by
username. -/
structure LoginCredentials where
  username : String
  password : String
deriving DecidableEq, Repr

/-- The users table, modelled as the list of its rows. -/
abbrev UserStore := List User

/-- `UserRepository.findById`: `SELECT * FROM users WHERE id = $1`. -/
def UserRepository.findById (id : String) (store : UserStore) : Option User :=
  store.find? (fun u => u.id == id)

/-- `UserRepository.findByUsername`: `SELECT * FROM users WHERE username = $1`
(exact string comparison). -/
def UserRepository.findByUsername (username : String) (store : UserStore) : Option User :=
  store.find? (fun u => u.username == username)

/-- `UserRepository.findByEmail`: `SELECT * FROM users WHERE email = $1`
(exact string comparison, no case normalization). -/
def UserRepository.findByEmail (email : String) (store : UserStore) : Option User :=
  store.find? (fun u => u.email == email)

/-- `UserRepository.create`: generates an id (made an explicit parameter,
like the bcrypt salt and the clock), hashes the password with
`bcrypt.hash(password, 10)`, and inserts the row with `role` defaulted to
'user' and `is_active` defaulted to true. -/
def UserRepository.create (dto : CreateUserDTO) (newId : String) (salt : Nat) (now : Nat)
    (store : UserStore) : User × UserStore :=
  let u : User :=
    { id := newId
      username := dto.username
      email := dto.email
      password := bcryptHash dto.password salt
      firstName := dto.firstName
      lastName := dto.lastName
      role := dto.role.getD .user
      isActive := true
      createdAt := now
      updatedAt := now }
  (u, store ++ [u])

/-- The SET clause built by `UserRepository.update` from an `UpdateUserDTO`:
each of email, first_name, last_name, role, is_active is set only when
supplied, and updated_at is always refreshed.  The password column is never
touched (the DTO has no such field). -/
def applyUpdate (dto : UpdateUserDTO) (now : Nat) (u : User) : User :=
  { u with
      email := dto.email.getD u.email
      firstName := dto.firstName.getD u.firstName
      lastName := dto.lastName.getD u.lastName
      role := dto.role.getD u.role
      isActive := dto.isActive.getD u.isActive
      updatedAt := now }

/-- `UserRepository.update`: `UPDATE users SET ... WHERE id = $n RETURNING *` —
rewrites the rows whose id matches and returns the updated row (null when the
id is absent). -/
def UserRepository.update (id : String) (dto : UpdateUserDTO) (now : Nat)
    (store : UserStore) : Option User × UserStore :=
  let store' := store.map (fun u => if u.id == id then applyUpdate dto now u else u)
  ((store.find? (fun u => u.id == id)).map (applyUpdate dto now), store')

/-- A Kafka event as sent by the service: topic plus the JSON payload,
modelled as its ordered field list. -/
structure Event where
  topic : String
  payload : List (String × String)
deriving DecidableEq, Repr

/-- The broker behind `KafkaProducer`: `failure = some msg` models the
underlying `producer.send` rejecting with that error. -/
structure KafkaBroker where
  failure : Option String
deriving DecidableEq, Repr

/-- Outcome of one `KafkaProducer.sendMessage` call: whether the error path
logged, and the value returned or error rethrown. -/
structure PublishOutcome where
  logged : Bool
  result : Except String Unit
deriving Repr

/-- `KafkaProducer.sendMessage`: on a broker failure the catch block logs the
error and rethrows it (`throw error`); on success it returns normally. -/
def KafkaProducer.sendMessage (broker : KafkaBroker) (_topic : String)
    (_payload : List (String × String)) : PublishOutcome :=
  match broker.failure with
  | none => ⟨false, .ok ()⟩
  | some msg => ⟨true, .error msg⟩

example : (KafkaProducer.sendMessage ⟨none⟩ "t" []).result = .ok () := by rfl
example : (KafkaProducer.sendMessage ⟨some "boom"⟩ "t" []).logged = true := by rfl

/-- Modelled from the spec: the claims a token carries, as signed by the
email-keyed login (`jwt.sign({userId, email, role}, secret, {expiresIn})`,
part_010) — the jsonwebtoken library itself is external to the repository. -/
structure JwtPayload where
  userId : String
  email : String
  role : UserRole
deriving DecidableEq, Repr

/-- Modelled from the spec: a well-formed signed token — the embedded claims,
issued-at, the absolute expiry computed at issuance, and the secret it was
signed with (standing for the signature). -/
structure Jwt where
  payload : JwtPayload
  iat : Nat
  exp : Nat
  secret : String
deriving DecidableEq, Repr

/-- A token as presented by a client: either a well-formed signed token or
bytes that do not parse as a token at all. -/
inductive Token where
  | valid (t : Jwt)
  | garbage (raw : String)
deriving DecidableEq, Repr

/-- Modelled from the spec: the Token Service verification error taxonomy —
`Expired` when current time exceeds the embedded expiry, `Malformed` when the
token cannot be parsed or its signature does not validate. -/
inductive JwtError where
  | expired
  | malformedToken
  | invalidSignature
deriving DecidableEq, Repr

/-- The message carried by each jsonwebtoken error object. -/
def JwtError.message : JwtError → String
  | .expired => "jwt expired"
  | .malformedToken => "jwt malformed"
  | .invalidSignature => "invalid signature"

/-- Modelled from the spec: `jwt.sign(claims, secret, {expiresIn: ttl})` —
issued at `now`, expiry is the absolute timestamp `now + ttl`. -/
def jwtSign (p : JwtPayload) (secret : String) (now : Nat) (ttl : Nat) : Jwt :=
  ⟨p, now, now + ttl, secret⟩

/-- Modelled from the spec: `jwt.verify(token, secret)` at clock time `now` —
unparseable bytes fail as malformed, a signature made with a different secret
fails to validate, a token whose expiry is exceeded fails as expired, and
otherwise the embedded claims are returned. -/
def jwtVerify (tok : Token) (secret : String) (now : Nat) : Except JwtError JwtPayload :=
  match tok with
  | .garbage _ => .error .malformedToken
  | .valid t =>
    if t.secret ≠ secret then .error .invalidSignature
    else if t.exp < now then .error .expired
    else .ok t.payload

/-- The error body of `ApiError` (part_013): status, message, optional
details. -/
structure ApiError where
  status : Nat
  message : String
  details : Option String
deriving DecidableEq, Repr

/-- The Authorization header of a request, abstracted past string splitting:
absent, present but not of the two-part `Bearer` shape, or carrying a
token. -/
inductive BearerHeader where
  | missing
  | badScheme (raw : String)
  | bearer (tok : Token)
deriving DecidableEq, Repr

/-- Result of `AuthMiddleware.authenticate`: the decoded claims attached to
the request (then `next()`), or a 401 JSON rejection. -/
inductive AuthResult where
  | ok (decoded : JwtPayload)
  | reject (resp : ApiError)
deriving DecidableEq, Repr

/-- `AuthMiddleware.authenticate` (authMiddleware.ts): missing header and
wrong scheme reject with their own 401 bodies; a token that fails
`jwt.verify` is caught and rejected with 401, message 'Authentication
failed', and the caught error's message in `details`; a verified token has
its decoded claims attached. The user store is never consulted. -/
def AuthMiddleware.authenticate (secret : String) (now : Nat) (hdr : BearerHeader) : AuthResult :=
  match hdr with
  | .missing => .reject ⟨401, "No token provided", none⟩
  | .badScheme _ => .reject ⟨401, "Token error", none⟩
  | .bearer tok =>
    match jwtVerify tok secret now with
    | .ok decoded => .ok decoded
    | .error e => .reject ⟨401, "Authentication failed", some e.message⟩

/-- `UserInfo` (part_018): the identity the RoleMiddleware attaches to the
request. -/
structure UserInfo where
  id : String
  isActive : Bool
  email : String
  role : UserRole
deriving DecidableEq, Repr

/-- Result of `RoleMiddleware.authenticate` (part_018): the attached
`UserInfo`, or a status plus `{error: ...}` JSON rejection. -/
inductive RoleAuthResult where
  | ok (ident : UserInfo)
  | reject (status : Nat) (error : String)
deriving DecidableEq, Repr

/-- `RoleMiddleware.authenticate` (part_018): after `jwt.verify` it looks the
subject up in the user repository — a missing `userId` claim rejects as
invalid token, an absent user rejects with 'User not found', and on success
the attached identity's `isActive` and `role` are read from the stored user,
not from the token. -/
def RoleMiddleware.authenticate (secret : String) (now : Nat) (hdr : BearerHeader)
    (store : UserStore) : RoleAuthResult :=
  match hdr with
  | .missing => .reject 401 "Authentication required"
  | .badScheme _ => .reject 401 "Authentication required"
  | .bearer tok =>
    match jwtVerify tok secret now with
    | .error _ => .reject 401 "Authentication failed"
    | .ok decoded =>
      if decoded.userId == "" then .reject 401 "Invalid token"
      else
        match UserRepository.findById decoded.userId store with
        | none => .reject 401 "User not found"
        | some u => .ok ⟨u.id, u.isActive, u.email, u.role⟩

example :
    AuthMiddleware.authenticate "s" 10 (.bearer (.valid (jwtSign ⟨"u", "e", .user⟩ "s" 0 5)))
      = .reject ⟨401, "Authentication failed", some "jwt expired"⟩ := by decide

/-- The configuration the `UserService` constructor captures (jwtSecret,
jwtExpiry) plus the injected Kafka producer's broker. -/
structure Env where
  jwtSecret : String
  jwtExpiry : Nat
  broker : KafkaBroker
deriving DecidableEq, Repr

/-- `UserService.toDTO`: strips the password hash from a user
(`const { password, ...userDTO } = user`). -/
def UserService.toDTO (u : User) : UserDTO :=
  ⟨u.id, u.username, u.email, u.firstName, u.lastName, u.role, u.isActive,
    u.createdAt, u.updatedAt⟩

/-- The token signed by the username-keyed login:
`jwt.sign({userId, username, role}, secret, {expiresIn})`. -/
structure UserJwt where
  userId : String
  username : String
  role : UserRole
  iat : Nat
  exp : Nat
  secret : String
deriving DecidableEq, Repr

/-- `AuthResponse` (part_013): safe user plus token. -/
structure AuthResponse where
  user : UserDTO
  token : UserJwt
deriving DecidableEq, Repr

/-- The `user.login.failed` payload: `{username, timestamp}`. -/
def loginFailedEvent (username : String) (now : Nat) : Event :=
  ⟨"user.login.failed", [("username", username), ("timestamp", toString now)]⟩

/-- The `user.login` payload: `{userId, username, timestamp}`. -/
def loginOkEvent (u : User) (now : Nat) : Event :=
  ⟨"user.login", [("userId", u.id), ("username", u.username), ("timestamp", toString now)]⟩

/-- The `user.password.changed` payload: `{userId, timestamp}`. -/
def passwordChangedEvent (id : String) (now : Nat) : Event :=
  ⟨"user.password.changed", [("userId", id), ("timestamp", toString now)]⟩

/-- A run of a `UserService` operation: the value returned or error thrown,
the store afterwards, the events actually delivered to the broker, and
whether `bcrypt.compare` was invoked during the run. -/
structure SvcTrace (α : Type) where
  result : Except String α
  store : UserStore
  events : List Event
  hashChecked : Bool
deriving Repr

/-- `UserService.login` (userService.ts, username-keyed): unknown username
throws the generic error at once; a disabled account throws 'User account is
disabled' before any hash comparison; a hash mismatch publishes
`user.login.failed` and then throws the generic error; on success a token is
signed and `user.login` published.  Each `sendMessage` is awaited without a
catch, so a broker failure propagates as the thrown error. -/
def UserService.login (env : Env) (creds : LoginCredentials) (now : Nat)
    (store : UserStore) : SvcTrace AuthResponse :=
  match UserRepository.findByUsername creds.username store with
  | none => ⟨.error "Invalid username or password", store, [], false⟩
  | some user =>
    if !user.isActive then
      ⟨.error "User account is disabled", store, [], false⟩
    else if !(bcryptCompare creds.password user.password) then
      match (KafkaProducer.sendMessage env.broker "user.login.failed"
          (loginFailedEvent creds.username now).payload).result with
      | .error msg => ⟨.error msg, store, [], true⟩
      | .ok _ =>
        ⟨.error "Invalid username or password", store, [loginFailedEvent creds.username now], true⟩
    else
      let token : UserJwt :=
        ⟨user.id, user.username, user.role, now, now + env.jwtExpiry, env.jwtSecret⟩
      match (KafkaProducer.sendMessage env.broker "user.login"
          (loginOkEvent user now).payload).result with
      | .error msg => ⟨.error msg, store, [], true⟩
      | .ok _ =>
        ⟨.ok ⟨UserService.toDTO user, token⟩, store, [loginOkEvent user now], true⟩

/-- `UserService.changePassword` (userService.ts / part_010): looks the
subject up, verifies the current password, hashes the new one — and then
calls `userRepository.update(id, {})` with an empty DTO (the update DTO has
no password field), publishes `user.password.changed`, and returns true. -/
def UserService.changePassword (env : Env) (id : String)
    (currentPassword newPassword : String) (salt : Nat) (now : Nat)
    (store : UserStore) : SvcTrace Bool :=
  match UserRepository.findById id store with
  | none => ⟨.error "User not found", store, [], false⟩
  | some user =>
    if !(bcryptCompare currentPassword user.password) then
      ⟨.error "Current password is incorrect", store, [], true⟩
    else
      let _hashedPassword := bcryptHash newPassword salt
      let (_, store') := UserRepository.update id UpdateUserDTO.empty now store
      match (KafkaProducer.sendMessage env.broker "user.password.changed"
          (passwordChangedEvent id now).payload).result with
      | .error msg => ⟨.error msg, store', [], true⟩
      | .ok _ => ⟨.ok true, store', [passwordChangedEvent id now], true⟩

/-- `UserService.createUser` (userService.ts, username-keyed): the username
uniqueness check runs first, then the email check, then the row is created
and `user.created` published. -/
def UserService.createUser (env : Env) (dto : CreateUserDTO) (newId : String)
    (salt : Nat) (now : Nat) (store : UserStore) : SvcTrace UserDTO :=
  match UserRepository.findByUsername dto.username store with
  | some _ => ⟨.error "Username already exists", store, [], false⟩
  | none =>
    match UserRepository.findByEmail dto.email store with
    | some _ => ⟨.error "Email already exists", store, [], false⟩
    | none =>
      let (newUser, store') := UserRepository.create dto newId salt now store
      let ev : Event :=
        ⟨"user.created",
          [("userId", newUser.id), ("username", newUser.username),
            ("email", newUser.email), ("role", newUser.role.toStr),
            ("timestamp", toString now)]⟩
      match (KafkaProducer.sendMessage env.broker "user.created" ev.payload).result with
      | .error msg => ⟨.error msg, store', [], false⟩
      | .ok _ => ⟨.ok (UserService.toDTO newUser), store', [ev], false⟩

/-- `UserService.createUser` (part_010, email-keyed): only the email
uniqueness check (exact string match), then create and publish
`user.created` with `{id, email, role, timestamp}`. -/
def UserService.createUserByEmail (env : Env) (dto : CreateUserDTO) (newId : String)
    (salt : Nat) (now : Nat) (store : UserStore) : SvcTrace UserDTO :=
  match UserRepository.findByEmail dto.email store with
  | some _ => ⟨.error "Email already exists", store, [], false⟩
  | none =>
    let (newUser, store') := UserRepository.create dto newId salt now store
    let ev : Event :=
      ⟨"user.created",
        [("id", newUser.id), ("email", newUser.email),
          ("role", newUser.role.toStr), ("timestamp", toString now)]⟩
    match (KafkaProducer.sendMessage env.broker "user.created" ev.payload).result with
    | .error msg => ⟨.error msg, store', [], false⟩
    | .ok _ => ⟨.ok (UserService.toDTO newUser), store', [ev], false⟩

/-- The HTTP response of the login route: the 200 body on success, or the
error body. -/
inductive LoginHttpResponse where
  | success (auth : AuthResponse)
  | failure (resp : ApiError)
deriving DecidableEq, Repr

/-- `UserController.login` (userController.ts): any error thrown by the
service — whichever of the causes — is caught by the single catch block and
answered with the one fixed 401 body ('for security reasons, we do not want
to be too specific about auth errors'). -/
def UserController.login (env : Env) (creds : LoginCredentials) (now : Nat)
    (store : UserStore) : LoginHttpResponse :=
  match (UserService.login env creds now store).result with
  | .ok auth => .success auth
  | .error _ => .failure ⟨401, "Authentication failed", some "Invalid email or password"⟩

deriving instance DecidableEq for Except

/-- Whether a service trace ended in a normal return. -/
def svcOk {α : Type} (t : SvcTrace α) : Bool :=
  match t.result with
  | .ok _ => true
  | .error _ => false

/-- A `find?` miss on the first part of an append passes through to the
second part. -/
theorem find?_append_of_none {α : Type} {p : α → Bool} {l₁ l₂ : List α}
    (h : l₁.find? p = none) : (l₁ ++ l₂).find? p = l₂.find? p := by
  rw [List.find?_append, h, Option.none_or]

/-- A list on which `find?` misses filters to the empty list. -/
theorem filter_nil_of_find?_none {α : Type} {p : α → Bool} {l : List α}
    (h : l.find? p = none) : l.filter p = [] := by
  rw [List.filter_eq_nil_iff]
  exact List.find?_eq_none.mp h

/-- Claim C5: a token issued with `issue(id, email, role, ttl)` at time `iat`
verifies to exactly the claims `{id, email, role}` at any time before the
embedded expiry `iat + ttl`, and fails with `Expired` at any time after it. -/
theorem token_issue_verify_roundtrip (id email : String) (role : UserRole)
    (secret : String) (iat ttl t₁ t₂ : Nat)
    (h₁ : t₁ < iat + ttl) (h₂ : iat + ttl < t₂) :
    jwtVerify (.valid (jwtSign ⟨id, email, role⟩ secret iat ttl)) secret t₁
      = .ok ⟨id, email, role⟩ ∧
    jwtVerify (.valid (jwtSign ⟨id, email, role⟩ secret iat ttl)) secret t₂
      = .error .expired := by
  have hnot : ¬ (iat + ttl < t₁) := Nat.not_lt.mpr (Nat.le_of_lt h₁)
  constructor
  · simp [jwtVerify, jwtSign, hnot]
  · simp [jwtVerify, jwtSign, h₂]

/-- Witness for C5 at a concrete issuance. -/
theorem token_issue_verify_roundtrip_witness :
    jwtVerify (.valid (jwtSign ⟨"u7", "w@example.com", .manager⟩ "sec" 0 10)) "sec" 3
      = .ok ⟨"u7", "w@example.com", .manager⟩ ∧
    jwtVerify (.valid (jwtSign ⟨"u7", "w@example.com", .manager⟩ "sec" 0 10)) "sec" 11
      = .error .expired :=
  token_issue_verify_roundtrip "u7" "w@example.com" .manager "sec" 0 10 3 11
    (by decide) (by decide)

/-- An expired but well-signed token, for the middleware counterexample. -/
def expiredTok : Token := .valid (jwtSign ⟨"u1", "a@example.com", .user⟩ "secret" 0 5)

/-- Counterexample to claim C8 as stated: both an expired token and malformed
bytes are rejected with 401, but the two response bodies differ — the
`details` field carries the underlying jwt error message, so the caller can
tell the failure reasons apart. -/
theorem auth_reject_details_differ :
    AuthMiddleware.authenticate "secret" 100 (.bearer expiredTok)
      = .reject ⟨401, "Authentication failed", some "jwt expired"⟩ ∧
    AuthMiddleware.authenticate "secret" 100 (.bearer (.garbage "zzz"))
      = .reject ⟨401, "Authentication failed", some "jwt malformed"⟩ ∧
    (⟨401, "Authentication failed", some "jwt expired"⟩ : ApiError)
      ≠ ⟨401, "Authentication failed", some "jwt malformed"⟩ := by
  decide

/-- Claim C8 as amended: every token whose verification fails — expired,
malformed, or bad signature — is rejected with status 401 and the fixed
message 'Authentication failed', but the response's `details` field exposes
the underlying verification error message, so the reason is distinguishable
to the caller. -/
theorem auth_reject_always_401_with_details (secret : String) (now : Nat)
    (tok : Token) (e : JwtError)
    (h : jwtVerify tok secret now = .error e) :
    AuthMiddleware.authenticate secret now (.bearer tok)
      = .reject ⟨401, "Authentication failed", some e.message⟩ := by
  simp [AuthMiddleware.authenticate, h]

/-- Witness for the amended C8 at a concrete expired token. -/
theorem auth_reject_always_401_with_details_witness :
    AuthMiddleware.authenticate "secret" 100 (.bearer expiredTok)
      = .reject ⟨401, "Authentication failed", some JwtError.expired.message⟩ :=
  auth_reject_always_401_with_details "secret" 100 expiredTok .expired (by decide)

/-- Claim C9: the generic update path can never change a stored password
hash — the update DTO carries only email, names, role and isActive, so the
password column of every row is unchanged by `UserRepository.update`. -/
theorem update_never_touches_password (id : String) (dto : UpdateUserDTO)
    (now : Nat) (store : UserStore) :
    ((UserRepository.update id dto now store).2).map User.password
      = store.map User.password := by
  show (store.map fun u => if u.id == id then applyUpdate dto now u else u).map User.password
      = store.map User.password
  rw [List.map_map]
  refine List.map_congr_left ?_
  intro u _
  by_cases h : u.id = id <;> simp [h, applyUpdate]

/-- Claim C10: in the username-keyed service variant, registration fails with
'Username already exists' whenever the requested username is taken — the
email is not consulted at all in that case (the username check runs first),
the store is unchanged and no event is published. -/
theorem createUser_username_uniqueness_first (env : Env) (dto : CreateUserDTO)
    (newId : String) (salt now : Nat) (store : UserStore) (u : User)
    (h : UserRepository.findByUsername dto.username store = some u) :
    (UserService.createUser env dto newId salt now store).result
        = .error "Username already exists" ∧
    (UserService.createUser env dto newId salt now store).store = store ∧
    (UserService.createUser env dto newId salt now store).events = [] := by
  simp [UserService.createUser, h]

/-- A concrete active user, shared by several witnesses. -/
def alice : User :=
  ⟨"u1", "alice", "alice@example.com", bcryptHash "old" 1, "A", "L", .user, true, 0, 0⟩

/-- Witness for C10: registering a second 'alice' fails on the username even
though the requested email is unused. -/
theorem createUser_username_uniqueness_first_witness :
    (UserService.createUser ⟨"secret", 100, ⟨none⟩⟩
        ⟨"alice", "fresh@example.com", "pw", "F", "G", none⟩ "u9" 2 5 [alice]).result
      = .error "Username already exists" ∧
    (UserService.createUser ⟨"secret", 100, ⟨none⟩⟩
        ⟨"alice", "fresh@example.com", "pw", "F", "G", none⟩ "u9" 2 5 [alice]).store = [alice] ∧
    (UserService.createUser ⟨"secret", 100, ⟨none⟩⟩
        ⟨"alice", "fresh@example.com", "pw", "F", "G", none⟩ "u9" 2 5 [alice]).events = [] :=
  createUser_username_uniqueness_first ⟨"secret", 100, ⟨none⟩⟩
    ⟨"alice", "fresh@example.com", "pw", "F", "G", none⟩ "u9" 2 5 [alice] alice (by decide)

/-- A healthy environment: JWT secret and expiry as configured, broker up. -/
def env0 : Env := ⟨"secret", 100, ⟨none⟩⟩

/-- A concrete deactivated user. -/
def disabledBob : User :=
  ⟨"u2", "bob", "bob@example.com", bcryptHash "pw" 2, "B", "M", .user, false, 0, 0⟩

/-- Claim C1: whatever the cause of a login failure — unknown identifier,
deactivated account, or hash mismatch — the controller's catch-all answers
with one and the same fixed 401 body, so any two failed login attempts are
observably identical to the HTTP caller. -/
theorem login_failures_indistinguishable (env₁ env₂ : Env)
    (creds₁ creds₂ : LoginCredentials) (now₁ now₂ : Nat) (store₁ store₂ : UserStore)
    (h₁ : ∃ e, (UserService.login env₁ creds₁ now₁ store₁).result = .error e)
    (h₂ : ∃ e, (UserService.login env₂ creds₂ now₂ store₂).result = .error e) :
    UserController.login env₁ creds₁ now₁ store₁
      = UserController.login env₂ creds₂ now₂ store₂ ∧
    UserController.login env₁ creds₁ now₁ store₁
      = .failure ⟨401, "Authentication failed", some "Invalid email or password"⟩ := by
  obtain ⟨e₁, h₁⟩ := h₁
  obtain ⟨e₂, h₂⟩ := h₂
  simp [UserController.login, h₁, h₂]

/-- Witness for C1: an unknown-user failure and a disabled-account failure
(two different internal errors) produce the identical 401 response. -/
theorem login_failures_indistinguishable_witness :
    UserController.login env0 ⟨"ghost", "pw"⟩ 5 []
      = UserController.login env0 ⟨"bob", "pw"⟩ 7 [disabledBob] ∧
    UserController.login env0 ⟨"ghost", "pw"⟩ 5 []
      = .failure ⟨401, "Authentication failed", some "Invalid email or password"⟩ :=
  login_failures_indistinguishable env0 env0 ⟨"ghost", "pw"⟩ ⟨"bob", "pw"⟩ 5 7 [] [disabledBob]
    ⟨"Invalid username or password", by decide⟩ ⟨"User account is disabled", by decide⟩

/-- The concrete changePassword run for claim C2: alice's stored hash is of
'old', the correct current password is supplied, and the salt for the new
hash is 7. -/
def changePwTrace : SvcTrace Bool :=
  UserService.changePassword env0 "u1" "old" "new" 7 5 [alice]

/-- Claim C2 (refuted by the code): `changePassword` with the correct current
password reports success and publishes `user.password.changed`, but the new
hash is never persisted — `update` is called with an empty DTO — so the
stored hash still verifies the old password: a subsequent login with the new
password fails and with the old password succeeds. -/
theorem changePassword_does_not_persist_hash :
    changePwTrace.result = .ok true ∧
    passwordChangedEvent "u1" 5 ∈ changePwTrace.events ∧
    changePwTrace.store.map User.password = [bcryptHash "old" 1] ∧
    svcOk (UserService.login env0 ⟨"alice", "new"⟩ 6 changePwTrace.store) = false ∧
    svcOk (UserService.login env0 ⟨"alice", "old"⟩ 6 changePwTrace.store) = true := by
  decide

/-- A signed admin token for the store-dependence counterexample. -/
def adminTok : Token := .valid (jwtSign ⟨"u9", "root@example.com", .admin⟩ "secret" 0 50)

/-- The admin user the token above was issued for. -/
def adminUser : User :=
  ⟨"u9", "root", "root@example.com", bcryptHash "pw" 3, "R", "T", .admin, true, 0, 0⟩

/-- Counterexample to claim C3 as stated: the same token at the same time
verifies differently under two store states in the `RoleMiddleware` variant —
accepted while the subject exists, rejected with 'User not found' once the
subject is deleted — so verification does consult the UserStore there. -/
theorem roleAuth_store_dependent :
    RoleMiddleware.authenticate "secret" 10 (.bearer adminTok) [adminUser]
      ≠ RoleMiddleware.authenticate "secret" 10 (.bearer adminTok) [] ∧
    RoleMiddleware.authenticate "secret" 10 (.bearer adminTok) []
      = .reject 401 "User not found" := by
  decide

/-- Claim C3 as amended: store-independence holds only for the
`AuthMiddleware` variant; in the `RoleMiddleware` variant authentication
consults the UserStore — any identity it attaches is drawn from the current
store, with `role` and `isActive` read from the stored user rather than the
token, so demotion or deactivation is visible there. -/
theorem roleAuth_identity_from_store (secret : String) (now : Nat)
    (hdr : BearerHeader) (store : UserStore) (ident : UserInfo)
    (h : RoleMiddleware.authenticate secret now hdr store = .ok ident) :
    ∃ u, u ∈ store ∧ ident = ⟨u.id, u.isActive, u.email, u.role⟩ := by
  cases hdr with
  | missing => simp [RoleMiddleware.authenticate] at h
  | badScheme raw => simp [RoleMiddleware.authenticate] at h
  | bearer tok =>
    cases hv : jwtVerify tok secret now with
    | error e => simp [RoleMiddleware.authenticate, hv] at h
    | ok decoded =>
      cases hid : decoded.userId == "" with
      | true => simp [RoleMiddleware.authenticate, hv, hid] at h
      | false =>
        cases hf : UserRepository.findById decoded.userId store with
        | none => simp [RoleMiddleware.authenticate, hv, hid, hf] at h
        | some u =>
          have hf' : store.find? (fun v => v.id == decoded.userId) = some u := hf
          refine ⟨u, List.mem_of_find?_eq_some hf', ?_⟩
          simp [RoleMiddleware.authenticate, hv, hid, hf] at h
          exact h.symm

/-- Witness for the amended C3 at a concrete token and store. -/
theorem roleAuth_identity_from_store_witness :
    ∃ u, u ∈ ([adminUser] : UserStore) ∧
      (⟨"u9", true, "root@example.com", UserRole.admin⟩ : UserInfo)
        = ⟨u.id, u.isActive, u.email, u.role⟩ :=
  roleAuth_identity_from_store "secret" 10 (.bearer adminTok) [adminUser]
    ⟨"u9", true, "root@example.com", .admin⟩ (by decide)

/-- An environment whose broker rejects every send. -/
def envBad : Env := ⟨"secret", 100, ⟨some "broker down"⟩⟩

/-- A registration DTO for a fresh user. -/
def carolDto : CreateUserDTO := ⟨"carol", "carol@example.com", "pw", "C", "D", none⟩

/-- The run of the email-keyed createUser against the failing broker. -/
def carolBadTrace : SvcTrace UserDTO :=
  UserService.createUserByEmail envBad carolDto "u5" 4 9 []

/-- Counterexample to claim C4 as stated: with the store write already
committed, the failing `user.created` publish makes `createUser` throw the
broker error to its caller — the publish failure is rethrown by
`sendMessage` and never caught by the service, so the operation reports
failure although the row was persisted. -/
theorem createUser_publish_failure_surfaces :
    carolBadTrace.result = .error "broker down" ∧
    (∃ u ∈ carolBadTrace.store, u.email = "carol@example.com") := by
  decide

/-- Claim C4 as amended: `KafkaProducer.sendMessage` logs a broker failure
and rethrows it, and the Authentication Service operations await the publish
without catching, so after a successful primary mutation a publish failure
does surface to the caller as the operation's error — while the mutation
itself stays persisted. -/
theorem publish_failure_propagates_after_mutation (env : Env)
    (dto : CreateUserDTO) (newId : String) (salt now : Nat) (store : UserStore)
    (msg : String)
    (hb : env.broker.failure = some msg)
    (hfresh : UserRepository.findByEmail dto.email store = none) :
    (UserService.createUserByEmail env dto newId salt now store).result = .error msg ∧
    (UserRepository.create dto newId salt now store).1
        ∈ (UserService.createUserByEmail env dto newId salt now store).store ∧
    ∀ topic payload, (KafkaProducer.sendMessage env.broker topic payload).logged = true := by
  refine ⟨?_, ?_, ?_⟩ <;>
    simp [UserService.createUserByEmail, hfresh, UserRepository.create,
      KafkaProducer.sendMessage, hb]

/-- Witness for the amended C4 at a concrete failed publish. -/
theorem publish_failure_propagates_after_mutation_witness :
    carolBadTrace.result = .error "broker down" ∧
    (UserRepository.create carolDto "u5" 4 9 []).1 ∈ carolBadTrace.store ∧
    ∀ topic payload, (KafkaProducer.sendMessage envBad.broker topic payload).logged = true :=
  publish_failure_propagates_after_mutation envBad carolDto "u5" 4 9 [] "broker down"
    (by decide) (by decide)

/-- The login run for an unknown username. -/
def ghostLoginTrace : SvcTrace AuthResponse :=
  UserService.login env0 ⟨"ghost", "pw"⟩ 5 []

/-- Counterexample to claim C6 as stated: a login failing because no user
matches the identifier publishes no `user.login.failed` event at all — the
service throws before any publish — although the claim requires one for
unknown identifiers. -/
theorem login_unknown_user_no_event :
    UserRepository.findByUsername "ghost" ([] : UserStore) = none ∧
    ghostLoginTrace.result = .error "Invalid username or password" ∧
    ghostLoginTrace.events = [] := by
  decide

/-- Claim C6 as amended: with the broker up, a `user.login.failed` event
carrying the identifier and timestamp is published exactly when the account
exists, is active, and hash verification fails; unknown identifiers and
deactivated accounts publish no failure event, and hash verification is
attempted exactly when the account exists and is active. -/
theorem login_failed_event_exactly_on_mismatch (env : Env)
    (creds : LoginCredentials) (now : Nat) (store : UserStore)
    (hb : env.broker.failure = none) :
    ((loginFailedEvent creds.username now ∈ (UserService.login env creds now store).events) ↔
      (∃ u, UserRepository.findByUsername creds.username store = some u ∧
        u.isActive = true ∧ bcryptCompare creds.password u.password = false)) ∧
    ((UserService.login env creds now store).hashChecked = true ↔
      (∃ u, UserRepository.findByUsername creds.username store = some u ∧
        u.isActive = true)) := by
  cases hf : UserRepository.findByUsername creds.username store with
  | none => simp [UserService.login, hf]
  | some u =>
    cases hact : u.isActive with
    | false => simp [UserService.login, hf, hact]
    | true =>
      cases hcmp : bcryptCompare creds.password u.password with
      | false =>
        simp [UserService.login, hf, hact, hcmp, KafkaProducer.sendMessage, hb]
      | true =>
        simp [UserService.login, hf, hact, hcmp, KafkaProducer.sendMessage, hb,
          loginFailedEvent, loginOkEvent]

/-- Witness for the amended C6: a wrong password for an existing active
account. -/
theorem login_failed_event_exactly_on_mismatch_witness :
    ((loginFailedEvent "alice" 5 ∈ (UserService.login env0 ⟨"alice", "wrong"⟩ 5 [alice]).events) ↔
      (∃ u, UserRepository.findByUsername "alice" [alice] = some u ∧
        u.isActive = true ∧ bcryptCompare "wrong" u.password = false)) ∧
    ((UserService.login env0 ⟨"alice", "wrong"⟩ 5 [alice]).hashChecked = true ↔
      (∃ u, UserRepository.findByUsername "alice" [alice] = some u ∧
        u.isActive = true)) :=
  login_failed_event_exactly_on_mismatch env0 ⟨"alice", "wrong"⟩ 5 [alice] (by decide)

/-- First registration, email in mixed case. -/
def dtoUpper : CreateUserDTO := ⟨"a1", "Alice@Example.com", "p1", "A", "X", none⟩

/-- Second registration, same email lower-cased. -/
def dtoLower : CreateUserDTO := ⟨"a2", "alice@example.com", "p2", "B", "Y", none⟩

/-- The first registration run. -/
def firstRegTrace : SvcTrace UserDTO :=
  UserService.createUserByEmail env0 dtoUpper "i1" 1 1 []

/-- The second registration run, on the store the first one produced. -/
def secondRegTrace : SvcTrace UserDTO :=
  UserService.createUserByEmail env0 dtoLower "i2" 2 2 firstRegTrace.store

/-- Modelled from the spec: the case-normalization of the claim — each ASCII
uppercase letter folded to its lowercase code. -/
def caseFold (s : String) : List Nat :=
  s.data.map (fun c => if 65 ≤ c.toNat ∧ c.toNat ≤ 90 then c.toNat + 32 else c.toNat)

/-- Counterexample to claim C7 as stated: two registrations whose emails are
equal after case normalization both succeed — the duplicate check compares
the raw strings — leaving two records in the store instead of one. -/
theorem duplicate_email_case_sensitive_cex :
    caseFold "Alice@Example.com" = caseFold "alice@example.com" ∧
    svcOk firstRegTrace = true ∧
    svcOk secondRegTrace = true ∧
    secondRegTrace.store.length = 2 := by
  decide

/-- Claim C7 as amended: duplicate-registration protection holds for the
byte-identical email only — after a registration with a previously unused
email, a second registration presenting the exact same email string fails
with 'Email already exists', leaves the store unchanged, and the store
retains exactly one user with that email; emails differing only in case are
treated as distinct. -/
theorem duplicate_email_exact_match (env : Env) (dto₁ dto₂ : CreateUserDTO)
    (id₁ id₂ : String) (s₁ s₂ n₁ n₂ : Nat) (store : UserStore)
    (hfresh : UserRepository.findByEmail dto₁.email store = none)
    (hsame : dto₂.email = dto₁.email) :
    (UserService.createUserByEmail env dto₂ id₂ s₂ n₂
        (UserService.createUserByEmail env dto₁ id₁ s₁ n₁ store).store).result
      = .error "Email already exists" ∧
    (UserService.createUserByEmail env dto₂ id₂ s₂ n₂
        (UserService.createUserByEmail env dto₁ id₁ s₁ n₁ store).store).store
      = (UserService.createUserByEmail env dto₁ id₁ s₁ n₁ store).store ∧
    ((UserService.createUserByEmail env dto₁ id₁ s₁ n₁ store).store.filter
        (fun u => u.email == dto₁.email)).length = 1 := by
  have hstore₁ : (UserService.createUserByEmail env dto₁ id₁ s₁ n₁ store).store
      = store ++ [(UserRepository.create dto₁ id₁ s₁ n₁ store).1] := by
    cases hbf : env.broker.failure <;>
      simp [UserService.createUserByEmail, hfresh, hbf, KafkaProducer.sendMessage,
        UserRepository.create]
  have hfind₂ : UserRepository.findByEmail dto₂.email
      (store ++ [(UserRepository.create dto₁ id₁ s₁ n₁ store).1])
      = some (UserRepository.create dto₁ id₁ s₁ n₁ store).1 := by
    unfold UserRepository.findByEmail
    rw [hsame]
    rw [find?_append_of_none (show store.find? (fun u => u.email == dto₁.email) = none
      from hfresh)]
    simp [UserRepository.create, List.find?]
  refine ⟨?_, ?_, ?_⟩
  · rw [hstore₁]
    simp [UserService.createUserByEmail, hfind₂]
  · rw [hstore₁]
    simp [UserService.createUserByEmail, hfind₂]
  · rw [hstore₁, List.filter_append,
      filter_nil_of_find?_none (show store.find? (fun u => u.email == dto₁.email) = none
        from hfresh)]
    simp [UserRepository.create]

/-- Witness for the amended C7: carol registers, and a second registration
with the byte-identical email fails, retaining one record. -/
theorem duplicate_email_exact_match_witness :
    (UserService.createUserByEmail env0 ⟨"c2", "carol@example.com", "q", "E", "F", none⟩
        "i4" 3 3 (UserService.createUserByEmail env0 carolDto "i3" 2 2 []).store).result
      = .error "Email already exists" ∧
    (UserService.createUserByEmail env0 ⟨"c2", "carol@example.com", "q", "E", "F", none⟩
        "i4" 3 3 (UserService.createUserByEmail env0 carolDto "i3" 2 2 []).store).store
      = (UserService.createUserByEmail env0 carolDto "i3" 2 2 []).store ∧
    ((UserService.createUserByEmail env0 carolDto "i3" 2 2 []).store.filter
        (fun u => u.email == carolDto.email)).length = 1 :=
  duplicate_email_exact_match env0 carolDto ⟨"c2", "carol@example.com", "q", "E", "F", none⟩
    "i3" "i4" 2 3 2 3 [] (by decide) (by decide)
